import Mathlib

/-!
Formal model of the x402nano `helper` package (`src/typescript/index.ts`).

The TypeScript source is shallowly embedded as follows:

* Arbitrary-precision decimal arithmetic (the `BigNumber` collaborator) is
  modelled by exact `Nat`/`Int` arithmetic over decimal digit strings:
  `decVal` models parsing a non-negative integer decimal string and
  `toDecString` models `BigNumber.toFixed()` (canonical decimal rendering,
  no exponent, no leading zeros).
* Network effects are modelled by passing the outcome of each external
  interaction as data: a `FetchOutcome` describes what `fetch` produced for
  one request, a custom work generator is described by the outcome of its
  single invocation, and hooks are described by the outcome of invoking each
  of them.  Side effects of interest (which external calls happen and in
  which order) are recorded as an explicit `List Event` trace.
* JavaScript truthiness of optional strings (`undefined`, `null` and `""`
  are falsy) is modelled by `optTruthy` on `Option String`.
* The error constants of `./common` (not part of the sources) are modelled
  as the abstract kinds of the spec's error taxonomy (`ErrKind`); an error
  is a kind together with the human-readable message from the source.
* Exceptions are modelled with `Except`; the stateful
  `setNanoAccountPrivateKey` returns the (possibly unchanged) state
  together with an optional error, mirroring that a TypeScript `throw`
  leaves all mutations that did not yet execute unperformed.
-/

namespace X402Helper

/-- JavaScript truthiness of an optional string value: `undefined`/`null`
(`none`) and the empty string are falsy, every other string is truthy. -/
def optTruthy : Option String → Bool
  | none => false
  | some s => s != ""

/-- Error kinds, modelling the error constants imported from `./common`
(`ERROR_CONFIG`, `ERROR_BLOCK_GENERATION`, `ERROR_NANO_WORK_GENERATION`,
`ERROR_NANO_RPC_CONNECTION`, `ERROR_INSUFFICIENT_NANO_BALANCE`). -/
inductive ErrKind where
  | config
  | blockGeneration
  | nanoWorkGeneration
  | nanoRpcConnection
  | insufficientNanoBalance
  deriving DecidableEq

/-- An error thrown by the helper: its kind tag (the `[${ERROR_*}]` part of
the TypeScript message) and the human-readable message of the source. -/
structure Err where
  kind : ErrKind
  msg : String
  deriving DecidableEq

/-- Decimal value of a list of digit characters (most significant first),
the way `BigNumber` reads a non-negative integer decimal string. -/
def decValList (l : List Char) : Nat :=
  l.foldl (fun acc c => 10 * acc + (c.toNat - 48)) 0

/-- Decimal value of a non-negative integer decimal string. -/
def decVal (s : String) : Nat := decValList s.data

/-- Digit characters of `n`, most significant first (`[]` for `0`), with
explicit fuel so that the definition is structural and computable;
`decDigitsAux n n` is fully evaluated because `n / 10 < n` for `n ≠ 0`. -/
def decDigitsAux (fuel : Nat) (n : Nat) : List Char :=
  match fuel with
  | 0 => []
  | fuel + 1 =>
    if n = 0 then [] else decDigitsAux fuel (n / 10) ++ [Nat.digitChar (n % 10)]

/-- Canonical decimal rendering of a natural number, modelling
`BigNumber.toFixed()` on a non-negative integer value: plain decimal
notation, no exponent, no leading zeros, `"0"` for zero. -/
def toDecString (n : Nat) : String :=
  if n = 0 then "0" else ⟨decDigitsAux n n⟩

/-- A non-empty string consisting of decimal digits only. -/
def isDecNatString (s : String) : Bool :=
  !s.data.isEmpty && s.data.all Char.isDigit

/-- A canonical decimal string: digits only, and no leading zero unless the
string is exactly `"0"`. -/
def canonicalDecString (s : String) : Bool :=
  isDecNatString s && (s == "0" || s.data.head? != some '0')

/-- The insufficient-balance error thrown by `calculateBalanceAfterSend`. -/
def insufficientBalanceErr : Err :=
  ⟨ErrKind.insufficientNanoBalance,
    "Insufficient balance to perform Nano send transaction"⟩

/-- Model of `calculateBalanceAfterSend`: computes
`new BigNumber(currentBalance).minus(amountToSend)` (exact integer
arithmetic on decimal strings, written out as the same difference in both
branches), throws the insufficient-balance error when the difference is
negative, and otherwise returns `bnBalanceAfterSend.toFixed()`. -/
def calculateBalanceAfterSend (currentBalance amountToSend : String) :
    Except Err String :=
  if ((decVal currentBalance : Int) - (decVal amountToSend : Int)) < 0 then
    Except.error insufficientBalanceErr
  else
    Except.ok
      (toDecString ((decVal currentBalance : Int) - (decVal amountToSend : Int)).toNat)

/-! ## Configuration validators (`validateNano*` of `index.ts`)

The `URL` and `HEX_64` zod schemas come from the excluded
`@x402nano/typescript-common` collaborator; each validator is therefore
parametrised by the schema it applies (a predicate on the optional string it
receives).  A zod string schema rejects `undefined`/`null`, so the schema
predicate is over `Option String` with `none` for an unset value. -/

/-- Error for an unset `NANO_RPC_URL`. -/
def rpcUrlNotSetErr : Err := ⟨ErrKind.config, "NANO_RPC_URL is not set"⟩

/-- Error for a malformed `NANO_RPC_URL`. -/
def rpcUrlInvalidErr : Err := ⟨ErrKind.config, "NANO_RPC_URL is not a valid URL"⟩

/-- Error for an unset `NANO_WORK_GENERATION_URL`. -/
def workUrlNotSetErr : Err := ⟨ErrKind.config, "NANO_WORK_GENERATION_URL is not set"⟩

/-- Error for a malformed `NANO_WORK_GENERATION_URL`. -/
def workUrlInvalidErr : Err := ⟨ErrKind.config, "NANO_WORK_GENERATION_URL is not a valid URL"⟩

/-- Error for an unset private key. -/
def privateKeyNotSetErr : Err := ⟨ErrKind.config, "NANO_ACCOUNT_PRIVATE_KEY is not set"⟩

/-- Error for a malformed private key. -/
def privateKeyFormatErr : Err :=
  ⟨ErrKind.config,
    "NANO_ACCOUNT_PRIVATE_KEY is not of a valid format (should be 64 hexadecimal characters)"⟩

/-- Model of `validateNanoRpcUrl` (the TypeScript default for
`bypassNullCheck` is `false`; callers here always pass it explicitly). -/
def validateNanoRpcUrl (urlOk : Option String → Bool) (url : Option String)
    (bypassNullCheck : Bool) : Except Err Unit :=
  if !bypassNullCheck && !(optTruthy url) then Except.error rpcUrlNotSetErr
  else if !(urlOk url) then Except.error rpcUrlInvalidErr
  else Except.ok ()

/-- Model of `validateNanoWorkGenerationUrl`. -/
def validateNanoWorkGenerationUrl (urlOk : Option String → Bool) (url : Option String)
    (bypassNullCheck : Bool) : Except Err Unit :=
  if !bypassNullCheck && !(optTruthy url) then Except.error workUrlNotSetErr
  else if !(urlOk url) then Except.error workUrlInvalidErr
  else Except.ok ()

/-- Model of `validateNanoAccountPrivateKey`, parametrised by the `HEX_64`
schema. -/
def validateNanoAccountPrivateKey (hexOk : Option String → Bool) (privateKey : Option String)
    (bypassNullCheck : Bool) : Except Err Unit :=
  if !bypassNullCheck && !(optTruthy privateKey) then Except.error privateKeyNotSetErr
  else if !(hexOk privateKey) then Except.error privateKeyFormatErr
  else Except.ok ()

/-- A hexadecimal digit character. -/
def isHexChar (c : Char) : Bool :=
  c.isDigit || (('a' ≤ c && c ≤ 'f') || ('A' ≤ c && c ≤ 'F'))

/-- Modelled from the spec: the `HEX_64` schema of the excluded
`@x402nano/typescript-common` validation collaborator — a private key "should
be 64 hexadecimal characters" ("private key (required only for block
generation, hex-64 format)").  Being a zod string schema it rejects an unset
(`none`) value. -/
def HEX_64ok : Option String → Bool
  | none => false
  | some s => s.length == 64 && s.data.all isHexChar

/-! ## RPC client (`nanoRpcCall`) -/

/-- Shape of a parsed JSON-RPC response body.  Only the fields the helper
reads are modelled; a field that is absent in the JSON object is `none`. -/
structure RpcJson where
  error : Option String
  work : Option String
  frontier : Option String
  balance : Option String
  representative : Option String
  deriving DecidableEq

/-- Outcome of the single `fetch` performed by `nanoRpcCall`:
either the request itself failed (network failure, or the timeout fired and
aborted it) carrying some raw diagnostic detail, or a response arrived with
an HTTP success flag (`res.ok`), a raw body text, and — when the body parses
as JSON — the parsed body. -/
inductive FetchOutcome where
  | transportFailure (detail : String)
  | response (ok : Bool) (rawBody : String) (json : Option RpcJson)
  deriving DecidableEq

/-- Stable error produced by `nanoRpcCall` for work-generation requests. -/
def workGenConnectErr : Err :=
  ⟨ErrKind.nanoWorkGeneration, "Could not connect to Nano Work Generation URL"⟩

/-- Stable error produced by `nanoRpcCall` for plain RPC requests. -/
def rpcConnectErr : Err :=
  ⟨ErrKind.nanoRpcConnection, "Could not connect to Nano RPC URL"⟩

/-- The body of the `try` block of `nanoRpcCall`: fail on a non-success HTTP
status (carrying `HTTP ${res.status}: ${text}` as detail), fail when the body
is not JSON (`res.json()` throws), fail when the parsed JSON has a truthy
`error` field (`if (json.error) throw ...`), and otherwise return the parsed
JSON. -/
def nanoRpcCallInner : FetchOutcome → Except String RpcJson
  | FetchOutcome.transportFailure detail => Except.error detail
  | FetchOutcome.response ok rawBody json =>
    if ok = false then Except.error ("HTTP status failure: " ++ rawBody)
    else
      match json with
      | none => Except.error "response body is not valid JSON"
      | some j =>
        if optTruthy j.error then Except.error ("Nano RPC error: " ++ j.error.getD "")
        else Except.ok j

/-- Model of `nanoRpcCall`: any failure raised inside the `try` block is
caught by the surrounding `catch`, which discards the underlying detail and
throws exactly one of two stable errors selected by `isGeneratingWork`. -/
def nanoRpcCall (isGeneratingWork : Bool) (outcome : FetchOutcome) :
    Except Err RpcJson :=
  match nanoRpcCallInner outcome with
  | Except.ok j => Except.ok j
  | Except.error _ =>
    Except.error (if isGeneratingWork then workGenConnectErr else rpcConnectErr)

/-! ## Work generation and block building -/

/-- Observable external interactions of the block-generation pipeline,
recorded in order of occurrence. -/
inductive Event where
  | beforeHook (index : Nat)
  | afterHook (index : Nat)
  | workRequest
  | signCall
  | accountInfoCall
  | balanceCalc
  deriving DecidableEq

/-- Modelled from the spec: `SEND_BLOCK_WORK_THRESHOLD`, "the protocol's
standard send-block difficulty constant", imported from the excluded
`@x402nano/typescript-common` package.  Its concrete value is irrelevant to
every theorem below (work verification is a black box). -/
def SEND_BLOCK_WORK_THRESHOLD : String := "fffffff800000000"

/-- Error for work failing threshold validation in `workGenerate`. -/
def workNotValidErr : Err :=
  ⟨ErrKind.nanoWorkGeneration, "Generated work is not valid"⟩

/-- Error for the defensive no-work check in `createBlock`. -/
def noWorkGeneratedErr : Err :=
  ⟨ErrKind.nanoWorkGeneration, "No work generated during creation of Nano send block"⟩

/-- Arguments of `workGenerate`.  The custom generator, when configured, is
described by the outcome of invoking it on `hash` (`Except.error m` for a
thrown error with message `m`); the remote branch is described by the
`FetchOutcome` of its `work_generate` RPC call; `verify` is the
`Nano.Crypto.verifyWork({hash, work, threshold})` black box. -/
structure WorkGenerateArgs where
  hash : String
  threshold : String
  workGenerator : Option (Except String String)
  rpcOutcome : FetchOutcome
  verify : String → String → String → Bool

/-- First phase of `workGenerate` (the `if (workGenerator) ... else ...`
statement): obtain a work token from the custom generator — wrapping any
failure it raises into a work-generation error that includes the original
message — or from the work-generation RPC endpoint, wrapping failures of
`nanoRpcCall` the same way; a response without a `work` field is modelled as
the empty token. -/
def workGenerateRaw (a : WorkGenerateArgs) : Except Err String :=
  match a.workGenerator with
  | some generatorOutcome =>
    match generatorOutcome with
    | Except.ok w => Except.ok w
    | Except.error m =>
      Except.error
        ⟨ErrKind.nanoWorkGeneration, "Error during custom work generation; cause: " ++ m⟩
  | none =>
    match nanoRpcCall true a.rpcOutcome with
    | Except.ok j => Except.ok (j.work.getD "")
    | Except.error e =>
      Except.error
        ⟨ErrKind.nanoWorkGeneration, "Error during work generation; cause: " ++ e.msg⟩

/-- Model of `workGenerate`: obtain a work token via `workGenerateRaw`, then
accept the token only if `Nano.Crypto.verifyWork` (`a.verify`) passes
against the threshold, else throw `workNotValidErr`.  The first trace
component records the single generator interaction (custom invocation or
`work_generate` RPC call). -/
def workGenerate (a : WorkGenerateArgs) : List Event × Except Err String :=
  ([Event.workRequest],
    match workGenerateRaw a with
    | Except.error e => Except.error e
    | Except.ok work =>
      if a.verify a.hash work a.threshold then Except.ok work
      else Except.error workNotValidErr)

/-- Helper configuration (`HelperConfig`); unset fields are `none`. -/
structure HelperConfig where
  NANO_RPC_URL : Option String
  NANO_WORK_GENERATION_URL : Option String
  NANO_ACCOUNT_PRIVATE_KEY : Option String
  deriving DecidableEq

/-- A signed send block as returned by the signing black box. -/
structure Block where
  account : String
  representative : String
  balance : String
  link : String
  previous : String
  work : String
  signature : String
  deriving DecidableEq

/-- Cosmetic normalization at the end of `createBlock`: if the signed
block's account uses the legacy `xrb_` address form it is rewritten to the
current `nano_` form (`block.account.replace` of the leading occurrence). -/
def normalizeLegacyAccount (b : Block) : Block :=
  if b.account.startsWith "xrb_" then
    { b with account := "nano_" ++ b.account.drop 4 }
  else b

/-- Run a list of hooks sequentially from index `i`, stopping at the first
hook that throws; returns the trace of hook invocations (tagged with their
registration index) and the first error, if any.  Each hook is described by
the outcome of invoking it. -/
def runHooks (tag : Nat → Event) : Nat → List (Except Err Unit) →
    List Event × Except Err Unit
  | _, [] => ([], Except.ok ())
  | i, hook :: rest =>
    match hook with
    | Except.error e => ([tag i], Except.error e)
    | Except.ok _ =>
      let r := runHooks tag (i + 1) rest
      (tag i :: r.1, r.2)

/-- Arguments of `createBlock`.  Hooks are described by the outcomes of
invoking them (the shared mutable context they receive is irrelevant to the
claims below); `sign` is the `N.createBlock(privateKey, {representative,
balance, work, link, previous})` black box. -/
structure CreateBlockArgs where
  config : HelperConfig
  representative : String
  balance : String
  link : String
  previous : String
  beforeHooks : List (Except Err Unit)
  afterHooks : List (Except Err Unit)
  workGenerator : Option (Except String String)
  rpcWorkOutcome : FetchOutcome
  verify : String → String → String → Bool
  sign : Option String → String → String → String → String → String → Block

/-- Model of `createBlock`: run the before-hooks in registration order
(aborting on the first failure), generate work for `previous` with the
default threshold, run the after-hooks, then — if a non-empty work token was
produced — sign and normalize the block, else throw the defensive
no-work error.  The trace records all external interactions in order. -/
def createBlock (a : CreateBlockArgs) : List Event × Except Err Block :=
  match runHooks Event.beforeHook 0 a.beforeHooks with
  | (bEvents, Except.error e) => (bEvents, Except.error e)
  | (bEvents, Except.ok _) =>
    match workGenerate
        ⟨a.previous, SEND_BLOCK_WORK_THRESHOLD, a.workGenerator, a.rpcWorkOutcome,
          a.verify⟩ with
    | (wEvents, Except.error e) => (bEvents ++ wEvents, Except.error e)
    | (wEvents, Except.ok work) =>
      match runHooks Event.afterHook 0 a.afterHooks with
      | (aEvents, Except.error e) => (bEvents ++ wEvents ++ aEvents, Except.error e)
      | (aEvents, Except.ok _) =>
        if work != "" then
          (bEvents ++ wEvents ++ aEvents ++ [Event.signCall],
            Except.ok (normalizeLegacyAccount
              (a.sign a.config.NANO_ACCOUNT_PRIVATE_KEY a.representative a.balance
                work a.link a.previous)))
        else
          (bEvents ++ wEvents ++ aEvents, Except.error noWorkGeneratedErr)

/-! ## Helper façade -/

/-- Error thrown when a private key is already configured. -/
def privateKeyAlreadySetErr : Err :=
  ⟨ErrKind.config,
    "Nano account private key already set. Manually clear with clearNanoAccountPrivateKey() first."⟩

/-- Model of `Helper.setNanoAccountPrivateKey`: validate the format (with the
null check bypassed), then refuse to overwrite an already-set key, then store
the key.  The result is the updated configuration together with the thrown
error, if any; the configuration is returned unchanged on the error paths
because the TypeScript `throw`s happen before the assignment. -/
def setNanoAccountPrivateKey (cfg : HelperConfig) (privateKey : Option String) :
    HelperConfig × Option Err :=
  match validateNanoAccountPrivateKey HEX_64ok privateKey true with
  | Except.error e => (cfg, some e)
  | Except.ok _ =>
    if optTruthy cfg.NANO_ACCOUNT_PRIVATE_KEY then (cfg, some privateKeyAlreadySetErr)
    else ({ cfg with NANO_ACCOUNT_PRIVATE_KEY := privateKey }, none)

/-- Model of `Helper.clearNanoAccountPrivateKey`: unconditionally sets the
stored key to `undefined`. -/
def clearNanoAccountPrivateKey (cfg : HelperConfig) : HelperConfig :=
  { cfg with NANO_ACCOUNT_PRIVATE_KEY := none }

/-- The configuration type returned by `getConfig`: the rest-destructuring
`const { [nanoPrivateKey]: _, ...configWithoutPrivateKey } = this.config`
produces an object that has every configuration property except
`NANO_ACCOUNT_PRIVATE_KEY`. -/
structure ConfigWithoutPrivateKey where
  NANO_RPC_URL : Option String
  NANO_WORK_GENERATION_URL : Option String
  deriving DecidableEq

/-- Model of `Helper.getConfig`. -/
def getConfig (cfg : HelperConfig) : ConfigWithoutPrivateKey :=
  { NANO_RPC_URL := cfg.NANO_RPC_URL,
    NANO_WORK_GENERATION_URL := cfg.NANO_WORK_GENERATION_URL }

/-- Error thrown by `generateSendBlock` for an unopened source account. -/
def noFrontierErr : Err :=
  ⟨ErrKind.blockGeneration, "Source account has no frontier (unopened account)"⟩

/-- Model of `Helper.getAccountInfo`: validate the RPC URL, then issue the
`account_info` RPC call; the trace records the RPC interaction. -/
def getAccountInfo (urlOk : Option String → Bool) (cfg : HelperConfig)
    (outcome : FetchOutcome) : List Event × Except Err RpcJson :=
  match validateNanoRpcUrl urlOk cfg.NANO_RPC_URL false with
  | Except.error e => ([], Except.error e)
  | Except.ok _ => ([Event.accountInfoCall], nanoRpcCall false outcome)

/-- Arguments of `Helper.generateSendBlock`.  `urlOk` is the `URL` zod
schema (black box); `accountInfoOutcome` is the fetch outcome of the
`account_info` RPC call issued for the account derived from the configured
private key (address derivation itself is a black box that does not affect
any observable of the claims). -/
structure GenerateSendBlockArgs where
  config : HelperConfig
  amount : String
  payTo : String
  urlOk : Option String → Bool
  accountInfoOutcome : FetchOutcome
  beforeHooks : List (Except Err Unit)
  afterHooks : List (Except Err Unit)
  workGenerator : Option (Except String String)
  rpcWorkOutcome : FetchOutcome
  verify : String → String → String → Bool
  sign : Option String → String → String → String → String → String → Block

/-- Model of `Helper.generateSendBlock`: fail-fast config validation, then
the `account_info` lookup, then the frontier requirement, then the balance
computation (recorded as `Event.balanceCalc`), then `createBlock`.  The
trace records all external interactions in order. -/
def generateSendBlock (g : GenerateSendBlockArgs) : List Event × Except Err Block :=
  match validateNanoRpcUrl g.urlOk g.config.NANO_RPC_URL false with
  | Except.error e => ([], Except.error e)
  | Except.ok _ =>
  match validateNanoAccountPrivateKey HEX_64ok g.config.NANO_ACCOUNT_PRIVATE_KEY false with
  | Except.error e => ([], Except.error e)
  | Except.ok _ =>
  match validateNanoWorkGenerationUrl g.urlOk g.config.NANO_WORK_GENERATION_URL false with
  | Except.error e => ([], Except.error e)
  | Except.ok _ =>
  match getAccountInfo g.urlOk g.config g.accountInfoOutcome with
  | (aiEvents, Except.error e) => (aiEvents, Except.error e)
  | (aiEvents, Except.ok info) =>
    if optTruthy info.frontier = false then
      (aiEvents, Except.error noFrontierErr)
    else
      match calculateBalanceAfterSend (info.balance.getD "") g.amount with
      | Except.error e => (aiEvents ++ [Event.balanceCalc], Except.error e)
      | Except.ok balanceAfterSend =>
        match createBlock
            { config := g.config
              representative := info.representative.getD ""
              balance := balanceAfterSend
              link := g.payTo
              previous := info.frontier.getD ""
              beforeHooks := g.beforeHooks
              afterHooks := g.afterHooks
              workGenerator := g.workGenerator
              rpcWorkOutcome := g.rpcWorkOutcome
              verify := g.verify
              sign := g.sign } with
        | (cbEvents, res) => (aiEvents ++ [Event.balanceCalc] ++ cbEvents, res)

/-! ## Concrete test vectors

Closed argument values used by the witness theorems below to evaluate the
model on concrete inputs. -/

/-- A concrete block value standing in for the output of the signing black
box in the test vectors. -/
def sampleBlock : Block := ⟨"", "", "", "", "", "", ""⟩

/-- A `createBlock` argument vector whose single before-hook throws. -/
def hookFailArgs : CreateBlockArgs :=
  { config := ⟨none, none, none⟩
    representative := ""
    balance := ""
    link := ""
    previous := ""
    beforeHooks := [Except.error ⟨ErrKind.config, "hook failure"⟩]
    afterHooks := []
    workGenerator := none
    rpcWorkOutcome := FetchOutcome.transportFailure "never reached"
    verify := fun _ _ _ => true
    sign := fun _ _ _ _ _ _ => sampleBlock }

/-- A `createBlock` argument vector whose custom work generator succeeds but
returns a token failing threshold validation. -/
def badWorkArgs : CreateBlockArgs :=
  { config := ⟨none, none, none⟩
    representative := ""
    balance := ""
    link := ""
    previous := "AB12"
    beforeHooks := []
    afterHooks := []
    workGenerator := some (Except.ok "badtoken")
    rpcWorkOutcome := FetchOutcome.transportFailure "unused"
    verify := fun _ _ _ => false
    sign := fun _ _ _ _ _ _ => sampleBlock }

/-- A `generateSendBlock` argument vector whose `account_info` lookup
succeeds but returns a response with no `frontier` field. -/
def noFrontierArgs : GenerateSendBlockArgs :=
  { config := ⟨some "https://rpc.example", some "https://work.example",
      some "D9E8DABBE4D0C34408C6662CBAD2152C091568BDC6A0A0C07DB188B8C00DCC83"⟩
    amount := "1"
    payTo := "nano_destination"
    urlOk := optTruthy
    accountInfoOutcome :=
      FetchOutcome.response true "" (some ⟨none, none, none, some "100", some "nano_rep"⟩)
    beforeHooks := []
    afterHooks := []
    workGenerator := none
    rpcWorkOutcome := FetchOutcome.transportFailure "unused"
    verify := fun _ _ _ => true
    sign := fun _ _ _ _ _ _ => sampleBlock }

/-! ## Lemmas about the decimal-string model -/

theorem decValList_append_digit (l : List Char) (c : Char) :
    decValList (l ++ [c]) = 10 * decValList l + (c.toNat - 48) := by
  unfold decValList
  rw [List.foldl_append]
  rfl

theorem digitChar_toNat (m : Nat) (h : m < 10) : (Nat.digitChar m).toNat = 48 + m := by
  interval_cases m <;> rfl

theorem digitChar_isDigit (m : Nat) (h : m < 10) : (Nat.digitChar m).isDigit = true := by
  interval_cases m <;> rfl

theorem digitChar_ne_zero_char (m : Nat) (h : m < 10) (h0 : m ≠ 0) :
    Nat.digitChar m ≠ '0' := by
  interval_cases m
  · exact absurd rfl h0
  all_goals decide

theorem decDigitsAux_zero (fuel : Nat) : decDigitsAux fuel 0 = [] := by
  cases fuel <;> rfl

theorem decValList_decDigitsAux (fuel : Nat) :
    ∀ n, n ≤ fuel → decValList (decDigitsAux fuel n) = n := by
  induction fuel with
  | zero =>
    intro n hn
    have : n = 0 := Nat.le_zero.mp hn
    subst this
    rfl
  | succ fuel ih =>
    intro n hn
    by_cases h0 : n = 0
    · subst h0
      rw [decDigitsAux_zero]
      rfl
    · have hlt : n / 10 < n := Nat.div_lt_self (Nat.pos_of_ne_zero h0) (by omega)
      have hdiv : n / 10 ≤ fuel := by omega
      have hmod : n % 10 < 10 := Nat.mod_lt _ (by omega)
      show decValList (decDigitsAux (fuel + 1) n) = n
      unfold decDigitsAux
      rw [if_neg h0, decValList_append_digit, ih _ hdiv, digitChar_toNat _ hmod]
      omega

theorem decDigitsAux_ne_nil (fuel n : Nat) (h0 : n ≠ 0) (hf : n ≤ fuel) :
    decDigitsAux fuel n ≠ [] := by
  cases fuel with
  | zero => omega
  | succ fuel =>
    unfold decDigitsAux
    rw [if_neg h0]
    simp

theorem decDigitsAux_all_digits (fuel : Nat) :
    ∀ n c, c ∈ decDigitsAux fuel n → c.isDigit = true := by
  induction fuel with
  | zero => intro n c hc; simp [decDigitsAux] at hc
  | succ fuel ih =>
    intro n c hc
    by_cases h0 : n = 0
    · subst h0; rw [decDigitsAux_zero] at hc; simp at hc
    · unfold decDigitsAux at hc
      rw [if_neg h0, List.mem_append] at hc
      rcases hc with h | h
      · exact ih _ _ h
      · have : c = Nat.digitChar (n % 10) := by simpa using h
        subst this
        exact digitChar_isDigit _ (Nat.mod_lt _ (by omega))

theorem decDigitsAux_head_ne_zero (fuel : Nat) :
    ∀ n, n ≠ 0 → n ≤ fuel → (decDigitsAux fuel n).head? ≠ some '0' := by
  induction fuel with
  | zero => intro n h0 hf; omega
  | succ fuel ih =>
    intro n h0 hf
    unfold decDigitsAux
    rw [if_neg h0]
    by_cases hlt : n < 10
    · have hdiv : n / 10 = 0 := Nat.div_eq_of_lt hlt
      have hmod : n % 10 = n := Nat.mod_eq_of_lt hlt
      rw [hdiv, decDigitsAux_zero, List.nil_append, hmod]
      intro hc
      have : Nat.digitChar n = '0' := by simpa using hc
      exact digitChar_ne_zero_char n hlt h0 this
    · have hdiv0 : n / 10 ≠ 0 := by omega
      have hdivle : n / 10 ≤ fuel := by omega
      cases hl : decDigitsAux fuel (n / 10) with
      | nil => exact absurd hl (decDigitsAux_ne_nil fuel _ hdiv0 hdivle)
      | cons x xs =>
        have hh := ih (n / 10) hdiv0 hdivle
        rw [hl] at hh
        simpa using hh

theorem decVal_toDecString (n : Nat) : decVal (toDecString n) = n := by
  by_cases h0 : n = 0
  · subst h0; decide
  · unfold toDecString
    rw [if_neg h0]
    exact decValList_decDigitsAux n n (Nat.le_refl n)

theorem canonicalDecString_toDecString (n : Nat) :
    canonicalDecString (toDecString n) = true := by
  by_cases h0 : n = 0
  · subst h0; decide
  · unfold toDecString
    rw [if_neg h0]
    have hne : decDigitsAux n n ≠ [] := decDigitsAux_ne_nil n n h0 (Nat.le_refl n)
    have hdig : ∀ c ∈ decDigitsAux n n, c.isDigit = true := decDigitsAux_all_digits n n
    have hhead : (decDigitsAux n n).head? ≠ some '0' :=
      decDigitsAux_head_ne_zero n n h0 (Nat.le_refl n)
    unfold canonicalDecString isDecNatString
    cases hl : decDigitsAux n n with
    | nil => exact absurd hl hne
    | cons x xs =>
      rw [hl] at hdig hhead
      have hx : x ≠ '0' := by
        intro hx; exact hhead (by simp [hx])
      simp only [Bool.and_eq_true, Bool.or_eq_true]
      refine ⟨⟨by simp, ?_⟩, Or.inr ?_⟩
      · rw [List.all_eq_true]
        intro c hc
        exact hdig c (by simpa using hc)
      · simp [hx]

/-! ## C1: balance arithmetic -/

/-- C1: for non-negative integer decimal strings, `calculateBalanceAfterSend`
returns exactly `currentBalance - amountToSend` as a canonical decimal string
(its decimal value is the exact difference, it has digits only and no leading
zeros) whenever `currentBalance ≥ amountToSend`, and throws the
insufficient-balance error — returning no result, in particular not a value
clamped to zero — whenever `amountToSend > currentBalance`. -/
theorem calculateBalanceAfterSend_exact (a b : String)
    (ha : isDecNatString a = true) (hb : isDecNatString b = true) :
    (decVal b ≤ decVal a →
      calculateBalanceAfterSend a b = Except.ok (toDecString (decVal a - decVal b)) ∧
      decVal (toDecString (decVal a - decVal b)) = decVal a - decVal b ∧
      canonicalDecString (toDecString (decVal a - decVal b)) = true) ∧
    (decVal a < decVal b →
      calculateBalanceAfterSend a b = Except.error insufficientBalanceErr) := by
  constructor
  · intro hle
    unfold calculateBalanceAfterSend
    rw [if_neg (by omega)]
    have htn : ((decVal a : Int) - (decVal b : Int)).toNat = decVal a - decVal b := by
      omega
    rw [htn]
    exact ⟨rfl, decVal_toDecString _, canonicalDecString_toDecString _⟩
  · intro hlt
    unfold calculateBalanceAfterSend
    rw [if_pos (by omega)]

/-- Witness for C1 at the concrete scenario `("50", "30")` of the spec. -/
theorem calculateBalanceAfterSend_exact_witness :
    decVal "30" ≤ decVal "50" ∧
    (calculateBalanceAfterSend "50" "30" = Except.ok (toDecString (decVal "50" - decVal "30")) ∧
      decVal (toDecString (decVal "50" - decVal "30")) = decVal "50" - decVal "30" ∧
      canonicalDecString (toDecString (decVal "50" - decVal "30")) = true) :=
  ⟨by decide,
    (calculateBalanceAfterSend_exact "50" "30" (by decide) (by decide)).1 (by decide)⟩

/-! ## C7 and C8: RPC failure classification -/

/-- C7: whenever `nanoRpcCall` fails — for any reason: transport failure or
timeout, non-success HTTP status, unparsable body, or a truthy JSON `error`
field — the error surfaced to the caller is exactly one of the two stable
errors selected by the `isGeneratingWork` flag (the work-generation error
naming the work-generation endpoint, or the RPC-connection error naming the
RPC endpoint), with the underlying failure detail discarded. -/
theorem nanoRpcCall_stable_error_classification (flag : Bool) :
    (∀ (o : FetchOutcome) (e : Err),
      nanoRpcCall flag o = Except.error e →
      e = if flag then workGenConnectErr else rpcConnectErr) ∧
    (∀ detail, nanoRpcCall flag (FetchOutcome.transportFailure detail) =
      Except.error (if flag then workGenConnectErr else rpcConnectErr)) ∧
    (∀ raw j, nanoRpcCall flag (FetchOutcome.response false raw j) =
      Except.error (if flag then workGenConnectErr else rpcConnectErr)) ∧
    (∀ raw j, optTruthy j.error = true →
      nanoRpcCall flag (FetchOutcome.response true raw (some j)) =
        Except.error (if flag then workGenConnectErr else rpcConnectErr)) := by
  refine ⟨?_, ?_, ?_, ?_⟩
  · intro o e h
    unfold nanoRpcCall at h
    cases hi : nanoRpcCallInner o with
    | ok j => rw [hi] at h; exact absurd h (by simp)
    | error m => rw [hi] at h; simpa using h.symm
  · intro detail; rfl
  · intro raw j; rfl
  · intro raw j hj
    unfold nanoRpcCall nanoRpcCallInner
    simp [hj]

/-- Witness for C7: a concrete truthy-`error`-field failure on the
work-generation flag. -/
theorem nanoRpcCall_stable_error_classification_witness :
    optTruthy (some "bad action") = true ∧
    nanoRpcCall true
        (FetchOutcome.response true "body"
          (some ⟨some "bad action", none, none, none, none⟩)) =
      Except.error (if true then workGenConnectErr else rpcConnectErr) :=
  ⟨by decide,
    (nanoRpcCall_stable_error_classification true).2.2.2 "body"
      ⟨some "bad action", none, none, none, none⟩ (by decide)⟩

/-- Counterexample to C8 as stated: the JSON response
`{"error": ""}` contains an explicit `error` field, yet `nanoRpcCall`
returns it as a success, because the source tests `if (json.error)` — a
truthiness check — and the empty string is falsy. -/
theorem nanoRpcCall_error_field_counterexample :
    (some "" : Option String).isSome = true ∧
    nanoRpcCall false
        (FetchOutcome.response true "" (some ⟨some "", none, none, none, none⟩)) =
      Except.ok ⟨some "", none, none, none, none⟩ :=
  ⟨rfl, rfl⟩

/-- C8 (amended): given a success HTTP status and a parseable JSON body,
`nanoRpcCall` treats the response as a failure exactly when its `error`
field is present and truthy (non-empty); a response whose `error` field is
absent or empty is a success returning the parsed JSON. -/
theorem nanoRpcCall_truthy_error_field (flag : Bool) (raw : String) (j : RpcJson) :
    (optTruthy j.error = true →
      nanoRpcCall flag (FetchOutcome.response true raw (some j)) =
        Except.error (if flag then workGenConnectErr else rpcConnectErr)) ∧
    (optTruthy j.error = false →
      nanoRpcCall flag (FetchOutcome.response true raw (some j)) = Except.ok j) := by
  constructor
  · intro hj
    unfold nanoRpcCall nanoRpcCallInner
    simp [hj]
  · intro hj
    unfold nanoRpcCall nanoRpcCallInner
    simp [hj]

/-- Witness for the amended C8: the success direction on a response with no
`error` field, and the failure direction on a truthy `error` field. -/
theorem nanoRpcCall_truthy_error_field_witness :
    optTruthy (none : Option String) = false ∧
    nanoRpcCall false
        (FetchOutcome.response true "" (some ⟨none, none, some "F", some "5", none⟩)) =
      Except.ok ⟨none, none, some "F", some "5", none⟩ :=
  ⟨by decide,
    (nanoRpcCall_truthy_error_field false ""
      ⟨none, none, some "F", some "5", none⟩).2 (by decide)⟩

/-! ## C9: configuration validators -/

theorem optTruthy_false_iff (u : Option String) :
    optTruthy u = false ↔ u = none ∨ u = some "" := by
  cases u with
  | none => simp [optTruthy]
  | some s => simp [optTruthy]

theorem schema_false_of_not_truthy (p : Option String → Bool) (h0 : p none = false)
    (h1 : p (some "") = false) (u : Option String) (ht : optTruthy u = false) :
    p u = false := by
  rcases (optTruthy_false_iff u).mp ht with h | h <;> simp [h, h0, h1]

theorem validateNanoRpcUrl_ok_iff (p : Option String → Bool) (h0 : p none = false)
    (h1 : p (some "") = false) (u : Option String) (b : Bool) :
    validateNanoRpcUrl p u b = Except.ok () ↔ p u = true := by
  unfold validateNanoRpcUrl
  by_cases ht : optTruthy u = true
  · cases hu : p u <;> simp [ht, hu]
  · have ht' : optTruthy u = false := by simpa using ht
    have hu : p u = false := schema_false_of_not_truthy p h0 h1 u ht'
    cases b <;> simp [ht', hu]

theorem validateNanoRpcUrl_err_kind (p : Option String → Bool) (u : Option String)
    (b : Bool) (e : Err) (h : validateNanoRpcUrl p u b = Except.error e) :
    e.kind = ErrKind.config := by
  unfold validateNanoRpcUrl at h
  split at h
  · have : rpcUrlNotSetErr = e := by simpa using h
    rw [← this]; rfl
  · split at h
    · have : rpcUrlInvalidErr = e := by simpa using h
      rw [← this]; rfl
    · exact absurd h (by simp)

theorem validateNanoRpcUrl_flag_indep (p : Option String → Bool) (u : Option String)
    (ht : optTruthy u = true) :
    validateNanoRpcUrl p u true = validateNanoRpcUrl p u false := by
  unfold validateNanoRpcUrl
  simp [ht]

theorem validateNanoRpcUrl_empty_case (p : Option String → Bool) (h0 : p none = false)
    (h1 : p (some "") = false) (u : Option String) (ht : optTruthy u = false) :
    validateNanoRpcUrl p u false = Except.error rpcUrlNotSetErr ∧
    validateNanoRpcUrl p u true = Except.error rpcUrlInvalidErr := by
  have hu : p u = false := schema_false_of_not_truthy p h0 h1 u ht
  unfold validateNanoRpcUrl
  simp [ht, hu]

theorem validateNanoWorkGenerationUrl_ok_iff (p : Option String → Bool)
    (h0 : p none = false) (h1 : p (some "") = false) (u : Option String) (b : Bool) :
    validateNanoWorkGenerationUrl p u b = Except.ok () ↔ p u = true := by
  unfold validateNanoWorkGenerationUrl
  by_cases ht : optTruthy u = true
  · cases hu : p u <;> simp [ht, hu]
  · have ht' : optTruthy u = false := by simpa using ht
    have hu : p u = false := schema_false_of_not_truthy p h0 h1 u ht'
    cases b <;> simp [ht', hu]

theorem validateNanoWorkGenerationUrl_err_kind (p : Option String → Bool)
    (u : Option String) (b : Bool) (e : Err)
    (h : validateNanoWorkGenerationUrl p u b = Except.error e) :
    e.kind = ErrKind.config := by
  unfold validateNanoWorkGenerationUrl at h
  split at h
  · have : workUrlNotSetErr = e := by simpa using h
    rw [← this]; rfl
  · split at h
    · have : workUrlInvalidErr = e := by simpa using h
      rw [← this]; rfl
    · exact absurd h (by simp)

theorem validateNanoWorkGenerationUrl_flag_indep (p : Option String → Bool)
    (u : Option String) (ht : optTruthy u = true) :
    validateNanoWorkGenerationUrl p u true = validateNanoWorkGenerationUrl p u false := by
  unfold validateNanoWorkGenerationUrl
  simp [ht]

theorem validateNanoWorkGenerationUrl_empty_case (p : Option String → Bool)
    (h0 : p none = false) (h1 : p (some "") = false) (u : Option String)
    (ht : optTruthy u = false) :
    validateNanoWorkGenerationUrl p u false = Except.error workUrlNotSetErr ∧
    validateNanoWorkGenerationUrl p u true = Except.error workUrlInvalidErr := by
  have hu : p u = false := schema_false_of_not_truthy p h0 h1 u ht
  unfold validateNanoWorkGenerationUrl
  simp [ht, hu]

theorem validateNanoAccountPrivateKey_ok_iff (p : Option String → Bool)
    (h0 : p none = false) (h1 : p (some "") = false) (u : Option String) (b : Bool) :
    validateNanoAccountPrivateKey p u b = Except.ok () ↔ p u = true := by
  unfold validateNanoAccountPrivateKey
  by_cases ht : optTruthy u = true
  · cases hu : p u <;> simp [ht, hu]
  · have ht' : optTruthy u = false := by simpa using ht
    have hu : p u = false := schema_false_of_not_truthy p h0 h1 u ht'
    cases b <;> simp [ht', hu]

theorem validateNanoAccountPrivateKey_err_kind (p : Option String → Bool)
    (u : Option String) (b : Bool) (e : Err)
    (h : validateNanoAccountPrivateKey p u b = Except.error e) :
    e.kind = ErrKind.config := by
  unfold validateNanoAccountPrivateKey at h
  split at h
  · have : privateKeyNotSetErr = e := by simpa using h
    rw [← this]; rfl
  · split at h
    · have : privateKeyFormatErr = e := by simpa using h
      rw [← this]; rfl
    · exact absurd h (by simp)

theorem validateNanoAccountPrivateKey_flag_indep (p : Option String → Bool)
    (u : Option String) (ht : optTruthy u = true) :
    validateNanoAccountPrivateKey p u true = validateNanoAccountPrivateKey p u false := by
  unfold validateNanoAccountPrivateKey
  simp [ht]

theorem validateNanoAccountPrivateKey_empty_case (p : Option String → Bool)
    (h0 : p none = false) (h1 : p (some "") = false) (u : Option String)
    (ht : optTruthy u = false) :
    validateNanoAccountPrivateKey p u false = Except.error privateKeyNotSetErr ∧
    validateNanoAccountPrivateKey p u true = Except.error privateKeyFormatErr := by
  have hu : p u = false := schema_false_of_not_truthy p h0 h1 u ht
  unfold validateNanoAccountPrivateKey
  simp [ht, hu]

/-- C9: for every input and both values of the bypass-null-check flag, each
of the three config validators accepts exactly the inputs passing its format
schema (any schema that, like the `URL` and `HEX_64` zod schemas, rejects
unset and empty values), rejects everything else with a configuration error,
and the flag never changes whether an input is accepted: on truthy inputs the
flag does not change the result at all, and on empty/unset inputs it only
selects which configuration error (is-not-set versus is-invalid) is thrown. -/
theorem validators_accept_exactly_schema (urlOk hexOk : Option String → Bool)
    (hu0 : urlOk none = false) (hu1 : urlOk (some "") = false)
    (hh0 : hexOk none = false) (hh1 : hexOk (some "") = false)
    (u : Option String) (b : Bool) :
    ((validateNanoRpcUrl urlOk u b = Except.ok () ↔ urlOk u = true) ∧
      (∀ e, validateNanoRpcUrl urlOk u b = Except.error e → e.kind = ErrKind.config) ∧
      (optTruthy u = true → validateNanoRpcUrl urlOk u true = validateNanoRpcUrl urlOk u false) ∧
      (optTruthy u = false →
        validateNanoRpcUrl urlOk u false = Except.error rpcUrlNotSetErr ∧
        validateNanoRpcUrl urlOk u true = Except.error rpcUrlInvalidErr)) ∧
    ((validateNanoWorkGenerationUrl urlOk u b = Except.ok () ↔ urlOk u = true) ∧
      (∀ e, validateNanoWorkGenerationUrl urlOk u b = Except.error e → e.kind = ErrKind.config) ∧
      (optTruthy u = true →
        validateNanoWorkGenerationUrl urlOk u true = validateNanoWorkGenerationUrl urlOk u false) ∧
      (optTruthy u = false →
        validateNanoWorkGenerationUrl urlOk u false = Except.error workUrlNotSetErr ∧
        validateNanoWorkGenerationUrl urlOk u true = Except.error workUrlInvalidErr)) ∧
    ((validateNanoAccountPrivateKey hexOk u b = Except.ok () ↔ hexOk u = true) ∧
      (∀ e, validateNanoAccountPrivateKey hexOk u b = Except.error e → e.kind = ErrKind.config) ∧
      (optTruthy u = true →
        validateNanoAccountPrivateKey hexOk u true = validateNanoAccountPrivateKey hexOk u false) ∧
      (optTruthy u = false →
        validateNanoAccountPrivateKey hexOk u false = Except.error privateKeyNotSetErr ∧
        validateNanoAccountPrivateKey hexOk u true = Except.error privateKeyFormatErr)) :=
  ⟨⟨validateNanoRpcUrl_ok_iff urlOk hu0 hu1 u b,
      fun e => validateNanoRpcUrl_err_kind urlOk u b e,
      validateNanoRpcUrl_flag_indep urlOk u,
      validateNanoRpcUrl_empty_case urlOk hu0 hu1 u⟩,
    ⟨validateNanoWorkGenerationUrl_ok_iff urlOk hu0 hu1 u b,
      fun e => validateNanoWorkGenerationUrl_err_kind urlOk u b e,
      validateNanoWorkGenerationUrl_flag_indep urlOk u,
      validateNanoWorkGenerationUrl_empty_case urlOk hu0 hu1 u⟩,
    ⟨validateNanoAccountPrivateKey_ok_iff hexOk hh0 hh1 u b,
      fun e => validateNanoAccountPrivateKey_err_kind hexOk u b e,
      validateNanoAccountPrivateKey_flag_indep hexOk u,
      validateNanoAccountPrivateKey_empty_case hexOk hh0 hh1 u⟩⟩

/-- Witness for C9: instantiated with the `HEX_64` model for both schema
slots (it rejects unset and empty values, like the `URL` schema) at a
format-valid 64-hex input and at the unset input. -/
theorem validators_accept_exactly_schema_witness :
    HEX_64ok none = false ∧ HEX_64ok (some "") = false ∧
    (validateNanoAccountPrivateKey HEX_64ok
        (some "D9E8DABBE4D0C34408C6662CBAD2152C091568BDC6A0A0C07DB188B8C00DCC83") false =
          Except.ok () ↔
      HEX_64ok
        (some "D9E8DABBE4D0C34408C6662CBAD2152C091568BDC6A0A0C07DB188B8C00DCC83") = true) ∧
    (validateNanoRpcUrl HEX_64ok none false = Except.error rpcUrlNotSetErr ∧
      validateNanoRpcUrl HEX_64ok none true = Except.error rpcUrlInvalidErr) :=
  ⟨by decide, by decide,
    ((validators_accept_exactly_schema HEX_64ok HEX_64ok (by decide) (by decide)
        (by decide) (by decide)
        (some "D9E8DABBE4D0C34408C6662CBAD2152C091568BDC6A0A0C07DB188B8C00DCC83")
        false).2.2).1,
    (((validators_accept_exactly_schema HEX_64ok HEX_64ok (by decide) (by decide)
        (by decide) (by decide) none false).1).2.2).2 (by decide)⟩

/-! ## C3, C4, C10: the credential state machine and its confidentiality -/

/-- C3: the private-key credential follows the two-state machine
`{no-key, key-set}`: while a key is set (truthy), `setNanoAccountPrivateKey`
always throws a configuration error and leaves the configuration unchanged;
`clearNanoAccountPrivateKey` unconditionally returns to the no-key state;
and after clearing, setting any format-valid key always succeeds, storing
exactly that key. -/
theorem privateKey_two_state_machine (cfg : HelperConfig) (k k2 : String) :
    (optTruthy cfg.NANO_ACCOUNT_PRIVATE_KEY = true →
      (setNanoAccountPrivateKey cfg (some k)).1 = cfg ∧
      Option.map Err.kind (setNanoAccountPrivateKey cfg (some k)).2 =
        some ErrKind.config) ∧
    (clearNanoAccountPrivateKey cfg).NANO_ACCOUNT_PRIVATE_KEY = none ∧
    (HEX_64ok (some k2) = true →
      setNanoAccountPrivateKey (clearNanoAccountPrivateKey cfg) (some k2) =
        ({ cfg with NANO_ACCOUNT_PRIVATE_KEY := some k2 }, none)) := by
  refine ⟨?_, rfl, ?_⟩
  · intro hset
    unfold setNanoAccountPrivateKey validateNanoAccountPrivateKey
    cases hk : HEX_64ok (some k) <;>
      simp [hset, hk, privateKeyFormatErr, privateKeyAlreadySetErr]
  · intro hk2
    unfold setNanoAccountPrivateKey validateNanoAccountPrivateKey
      clearNanoAccountPrivateKey
    simp [hk2, optTruthy]

/-- Witness for C3 at a concrete key-set configuration: the forbidden
`key-set → key-set` transition fails with a configuration error and changes
nothing, and clear-then-set with a fresh format-valid key succeeds. -/
theorem privateKey_two_state_machine_witness :
    optTruthy (HelperConfig.mk none none
        (some "D9E8DABBE4D0C34408C6662CBAD2152C091568BDC6A0A0C07DB188B8C00DCC83")).NANO_ACCOUNT_PRIVATE_KEY
      = true ∧
    ((setNanoAccountPrivateKey
        (HelperConfig.mk none none
          (some "D9E8DABBE4D0C34408C6662CBAD2152C091568BDC6A0A0C07DB188B8C00DCC83"))
        (some "614D9DEBE870D30EFCABF74927E688FD2C3261486B7BAA8E10E3D642E4F5EDBC")).1 =
      HelperConfig.mk none none
        (some "D9E8DABBE4D0C34408C6662CBAD2152C091568BDC6A0A0C07DB188B8C00DCC83") ∧
      Option.map Err.kind
        (setNanoAccountPrivateKey
          (HelperConfig.mk none none
            (some "D9E8DABBE4D0C34408C6662CBAD2152C091568BDC6A0A0C07DB188B8C00DCC83"))
          (some "614D9DEBE870D30EFCABF74927E688FD2C3261486B7BAA8E10E3D642E4F5EDBC")).2 =
        some ErrKind.config) ∧
    (setNanoAccountPrivateKey
        (clearNanoAccountPrivateKey
          (HelperConfig.mk none none
            (some "D9E8DABBE4D0C34408C6662CBAD2152C091568BDC6A0A0C07DB188B8C00DCC83")))
        (some "614D9DEBE870D30EFCABF74927E688FD2C3261486B7BAA8E10E3D642E4F5EDBC") =
      ({ HelperConfig.mk none none
            (some "D9E8DABBE4D0C34408C6662CBAD2152C091568BDC6A0A0C07DB188B8C00DCC83") with
          NANO_ACCOUNT_PRIVATE_KEY :=
            some "614D9DEBE870D30EFCABF74927E688FD2C3261486B7BAA8E10E3D642E4F5EDBC" },
        none)) :=
  ⟨by decide,
    (privateKey_two_state_machine
        (HelperConfig.mk none none
          (some "D9E8DABBE4D0C34408C6662CBAD2152C091568BDC6A0A0C07DB188B8C00DCC83"))
        "614D9DEBE870D30EFCABF74927E688FD2C3261486B7BAA8E10E3D642E4F5EDBC"
        "614D9DEBE870D30EFCABF74927E688FD2C3261486B7BAA8E10E3D642E4F5EDBC").1 (by decide),
    (privateKey_two_state_machine
        (HelperConfig.mk none none
          (some "D9E8DABBE4D0C34408C6662CBAD2152C091568BDC6A0A0C07DB188B8C00DCC83"))
        "614D9DEBE870D30EFCABF74927E688FD2C3261486B7BAA8E10E3D642E4F5EDBC"
        "614D9DEBE870D30EFCABF74927E688FD2C3261486B7BAA8E10E3D642E4F5EDBC").2.2 (by decide)⟩

/-- C4: `getConfig` never exposes the private key.  Its result type has no
private-key field, and — the equivalent hyperproperty — any two
configurations differing only in the stored private key yield identical
`getConfig` results; in particular the result observed immediately after a
successful `setNanoAccountPrivateKey` equals the one observed before it. -/
theorem getConfig_hides_privateKey (cfg : HelperConfig) (k : Option String)
    (pk : String) :
    getConfig { cfg with NANO_ACCOUNT_PRIVATE_KEY := k } = getConfig cfg ∧
    ((setNanoAccountPrivateKey cfg (some pk)).2 = none →
      getConfig (setNanoAccountPrivateKey cfg (some pk)).1 = getConfig cfg) := by
  constructor
  · rfl
  · intro _
    unfold setNanoAccountPrivateKey validateNanoAccountPrivateKey
    cases hk : HEX_64ok (some pk) <;>
      cases hset : optTruthy cfg.NANO_ACCOUNT_PRIVATE_KEY <;>
        simp [hk, hset] <;> rfl

/-- Witness for C4: after successfully setting a key on an otherwise
configured instance, `getConfig` is unchanged. -/
theorem getConfig_hides_privateKey_witness :
    (setNanoAccountPrivateKey
        (HelperConfig.mk (some "https://rpc.example") (some "https://work.example") none)
        (some "D9E8DABBE4D0C34408C6662CBAD2152C091568BDC6A0A0C07DB188B8C00DCC83")).2 = none ∧
    getConfig
        (setNanoAccountPrivateKey
          (HelperConfig.mk (some "https://rpc.example") (some "https://work.example") none)
          (some "D9E8DABBE4D0C34408C6662CBAD2152C091568BDC6A0A0C07DB188B8C00DCC83")).1 =
      getConfig
        (HelperConfig.mk (some "https://rpc.example") (some "https://work.example") none) :=
  ⟨by decide,
    (getConfig_hides_privateKey
        (HelperConfig.mk (some "https://rpc.example") (some "https://work.example") none)
        none "D9E8DABBE4D0C34408C6662CBAD2152C091568BDC6A0A0C07DB188B8C00DCC83").2
      (by decide)⟩

/-- C10: `setNanoAccountPrivateKey` is atomic on error — whenever it throws,
the stored configuration is unchanged — and it runs the format check before
the already-set check: a format-invalid key always yields the format
configuration error, even while a key is already set; a format-valid key
while a key is set yields the already-set configuration error. -/
theorem setPrivateKey_validation_order (cfg : HelperConfig) (pk : Option String) :
    (HEX_64ok pk = false →
      setNanoAccountPrivateKey cfg pk = (cfg, some privateKeyFormatErr)) ∧
    (HEX_64ok pk = true → optTruthy cfg.NANO_ACCOUNT_PRIVATE_KEY = true →
      setNanoAccountPrivateKey cfg pk = (cfg, some privateKeyAlreadySetErr)) ∧
    (∀ e, (setNanoAccountPrivateKey cfg pk).2 = some e →
      (setNanoAccountPrivateKey cfg pk).1 = cfg ∧ e.kind = ErrKind.config) := by
  refine ⟨?_, ?_, ?_⟩
  · intro hk
    unfold setNanoAccountPrivateKey validateNanoAccountPrivateKey
    simp [hk]
  · intro hk hset
    unfold setNanoAccountPrivateKey validateNanoAccountPrivateKey
    simp [hk, hset]
  · intro e
    unfold setNanoAccountPrivateKey validateNanoAccountPrivateKey
    cases hk : HEX_64ok pk <;> cases hset : optTruthy cfg.NANO_ACCOUNT_PRIVATE_KEY <;>
      simp [hk, hset] <;> intro he <;> subst he <;> rfl

/-- Witness for C10: a format-invalid key supplied while a key is already
set yields the format error (not the already-set error) and leaves the
configuration unchanged. -/
theorem setPrivateKey_validation_order_witness :
    HEX_64ok (some "not-a-hex-key") = false ∧
    setNanoAccountPrivateKey
        (HelperConfig.mk none none
          (some "D9E8DABBE4D0C34408C6662CBAD2152C091568BDC6A0A0C07DB188B8C00DCC83"))
        (some "not-a-hex-key") =
      (HelperConfig.mk none none
          (some "D9E8DABBE4D0C34408C6662CBAD2152C091568BDC6A0A0C07DB188B8C00DCC83"),
        some privateKeyFormatErr) :=
  ⟨by decide,
    (setPrivateKey_validation_order
        (HelperConfig.mk none none
          (some "D9E8DABBE4D0C34408C6662CBAD2152C091568BDC6A0A0C07DB188B8C00DCC83"))
        (some "not-a-hex-key")).1 (by decide)⟩

/-! ## Lemmas about hook execution and the block-builder trace -/

theorem take_append_length {α : Type} (l₁ l₂ : List α) (n : Nat) (h : l₁.length = n) :
    (l₁ ++ l₂).take n = l₁ := by
  subst h
  induction l₁ with
  | nil => rfl
  | cons x xs ih => simpa using ih

theorem runHooks_allOk (tag : Nat → Event) :
    ∀ (hooks : List (Except Err Unit)) (s : Nat),
      (∀ x ∈ hooks, x = Except.ok ()) →
      runHooks tag s hooks = ((List.range' s hooks.length).map tag, Except.ok ()) := by
  intro hooks
  induction hooks with
  | nil => intro s _; rfl
  | cons h rest ih =>
    intro s hall
    have hh : h = Except.ok () := hall h (List.mem_cons_self h rest)
    subst hh
    have hrest : ∀ x ∈ rest, x = Except.ok () := fun x hx =>
      hall x (List.mem_cons_of_mem _ hx)
    simp [runHooks, ih (s + 1) hrest, List.range']

theorem runHooks_firstError (tag : Nat → Event) (e : Err) :
    ∀ (i : Nat) (hooks : List (Except Err Unit)) (s : Nat),
      hooks.take i = List.replicate i (Except.ok ()) →
      hooks.get? i = some (Except.error e) →
      runHooks tag s hooks = ((List.range' s (i + 1)).map tag, Except.error e) := by
  intro i
  induction i with
  | zero =>
    intro hooks s htake hget
    cases hooks with
    | nil => simp at hget
    | cons h rest =>
      have hh : h = Except.error e := by simpa using hget
      subst hh
      simp [runHooks, List.range']
  | succ i ih =>
    intro hooks s htake hget
    cases hooks with
    | nil => simp at hget
    | cons h rest =>
      rw [List.take_succ_cons, List.replicate_succ] at htake
      obtain ⟨hh, htake'⟩ : h = Except.ok () ∧
          rest.take i = List.replicate i (Except.ok ()) := by simpa using htake
      subst hh
      have hget' : rest.get? i = some (Except.error e) := by simpa using hget
      simp [runHooks, ih rest (s + 1) htake' hget', List.range']

theorem runHooks_mem_tags (tag : Nat → Event) :
    ∀ (hooks : List (Except Err Unit)) (s : Nat) (ev : Event),
      ev ∈ (runHooks tag s hooks).1 → ∃ j, ev = tag j := by
  intro hooks
  induction hooks with
  | nil => intro s ev h; simp [runHooks] at h
  | cons hk rest ih =>
    intro s ev h
    cases hk with
    | error e =>
      simp [runHooks] at h
      exact ⟨s, h⟩
    | ok u =>
      cases u
      simp [runHooks] at h
      rcases h with h | h
      · exact ⟨s, h⟩
      · exact ih (s + 1) ev h

theorem workGenerate_fst (wa : WorkGenerateArgs) :
    (workGenerate wa).1 = [Event.workRequest] := rfl

theorem createBlock_beforeHook_error (a : CreateBlockArgs) (L : List Event) (e : Err)
    (hbh : runHooks Event.beforeHook 0 a.beforeHooks = (L, Except.error e)) :
    createBlock a = (L, Except.error e) := by
  unfold createBlock
  rw [hbh]

theorem createBlock_workGenerate_error (a : CreateBlockArgs) (L : List Event) (e : Err)
    (hbh : runHooks Event.beforeHook 0 a.beforeHooks = (L, Except.ok ()))
    (hwg : (workGenerate ⟨a.previous, SEND_BLOCK_WORK_THRESHOLD, a.workGenerator,
      a.rpcWorkOutcome, a.verify⟩).2 = Except.error e) :
    createBlock a = (L ++ [Event.workRequest], Except.error e) := by
  have hwpair : workGenerate ⟨a.previous, SEND_BLOCK_WORK_THRESHOLD, a.workGenerator,
      a.rpcWorkOutcome, a.verify⟩ = ([Event.workRequest], Except.error e) := by
    rw [Prod.ext_iff]
    exact ⟨workGenerate_fst _, hwg⟩
  unfold createBlock
  rw [hbh, hwpair]

theorem createBlock_workGenerate_ok (a : CreateBlockArgs) (L : List Event) (work : String)
    (hbh : runHooks Event.beforeHook 0 a.beforeHooks = (L, Except.ok ()))
    (hwg : (workGenerate ⟨a.previous, SEND_BLOCK_WORK_THRESHOLD, a.workGenerator,
      a.rpcWorkOutcome, a.verify⟩).2 = Except.ok work) :
    ∃ rest res, createBlock a = ((L ++ [Event.workRequest]) ++ rest, res) := by
  have hwpair : workGenerate ⟨a.previous, SEND_BLOCK_WORK_THRESHOLD, a.workGenerator,
      a.rpcWorkOutcome, a.verify⟩ = ([Event.workRequest], Except.ok work) := by
    rw [Prod.ext_iff]
    exact ⟨workGenerate_fst _, hwg⟩
  unfold createBlock
  rw [hbh, hwpair]
  cases har : runHooks Event.afterHook 0 a.afterHooks with
  | mk aEvents ares =>
    cases ares with
    | error e => exact ⟨aEvents, Except.error e, by simp⟩
    | ok u =>
      cases u
      by_cases hw : (work != "") = true
      · refine ⟨aEvents ++ [Event.signCall],
          Except.ok (normalizeLegacyAccount
            (a.sign a.config.NANO_ACCOUNT_PRIVATE_KEY a.representative a.balance
              work a.link a.previous)), ?_⟩
        simp [hw]
      · have hw' : (work != "") = false := by simpa using hw
        refine ⟨aEvents, Except.error noWorkGeneratedErr, ?_⟩
        simp [hw']

theorem createBlock_ok_before (a : CreateBlockArgs) (L : List Event)
    (hbh : runHooks Event.beforeHook 0 a.beforeHooks = (L, Except.ok ())) :
    ∃ rest res, createBlock a = ((L ++ [Event.workRequest]) ++ rest, res) := by
  cases hwg : (workGenerate ⟨a.previous, SEND_BLOCK_WORK_THRESHOLD, a.workGenerator,
      a.rpcWorkOutcome, a.verify⟩).2 with
  | error e =>
    exact ⟨[], Except.error e, by
      rw [createBlock_workGenerate_error a L e hbh hwg]; simp⟩
  | ok work => exact createBlock_workGenerate_ok a L work hbh hwg

/-! ## C5: before-hooks run in order and abort the build -/

/-- C5: during `createBlock` every before-hook runs sequentially in
registration order before any work generation — when all before-hooks
succeed, the trace starts with exactly the before-hook invocations
`0, …, n-1` in order followed by the work-generation request — and if the
before-hook at index `i` is the first to throw, the build returns that
error unchanged after having run exactly hooks `0, …, i`, so no later
before-hook runs and no work-generation request (RPC or custom) is ever
made. -/
theorem beforeHooks_order_and_abort :
    (∀ (a : CreateBlockArgs),
      (∀ x ∈ a.beforeHooks, x = Except.ok ()) →
      (createBlock a).1.take (a.beforeHooks.length + 1) =
        (List.range a.beforeHooks.length).map Event.beforeHook ++ [Event.workRequest]) ∧
    (∀ (a : CreateBlockArgs) (i : Nat) (e : Err),
      a.beforeHooks.take i = List.replicate i (Except.ok ()) →
      a.beforeHooks.get? i = some (Except.error e) →
      createBlock a = ((List.range (i + 1)).map Event.beforeHook, Except.error e) ∧
      Event.workRequest ∉ (createBlock a).1) := by
  constructor
  · intro a hall
    have hbh := runHooks_allOk Event.beforeHook a.beforeHooks 0 hall
    obtain ⟨rest, res, hc⟩ := createBlock_ok_before a _ hbh
    rw [hc]
    have hlen : ((List.range' 0 a.beforeHooks.length).map Event.beforeHook ++
        [Event.workRequest]).length = a.beforeHooks.length + 1 := by
      simp
    calc ((((List.range' 0 a.beforeHooks.length).map Event.beforeHook ++
            [Event.workRequest]) ++ rest), res).1.take (a.beforeHooks.length + 1)
        = ((List.range' 0 a.beforeHooks.length).map Event.beforeHook ++
            [Event.workRequest]) := take_append_length _ rest _ hlen
      _ = (List.range a.beforeHooks.length).map Event.beforeHook ++
            [Event.workRequest] := by rw [List.range_eq_range']
  · intro a i e htake hget
    have hbh := runHooks_firstError Event.beforeHook e i a.beforeHooks 0 htake hget
    have hc : createBlock a =
        ((List.range' 0 (i + 1)).map Event.beforeHook, Except.error e) :=
      createBlock_beforeHook_error a _ e hbh
    constructor
    · rw [hc, List.range_eq_range']
    · rw [hc]
      intro hmem
      simp at hmem

/-- Witness for C5: a concrete build whose single before-hook throws runs
exactly that hook, propagates its error unchanged, and requests no work. -/
theorem beforeHooks_order_and_abort_witness :
    createBlock hookFailArgs =
      ((List.range (0 + 1)).map Event.beforeHook,
        Except.error ⟨ErrKind.config, "hook failure"⟩) ∧
    Event.workRequest ∉ (createBlock hookFailArgs).1 :=
  beforeHooks_order_and_abort.2 hookFailArgs 0 ⟨ErrKind.config, "hook failure"⟩ rfl rfl

/-! ## C2: work must pass threshold validation before acceptance -/

theorem workGenerateRaw_custom (wa : WorkGenerateArgs) (w : String)
    (h : wa.workGenerator = some (Except.ok w)) : workGenerateRaw wa = Except.ok w := by
  unfold workGenerateRaw
  rw [h]

theorem workGenerateRaw_rpc (wa : WorkGenerateArgs) (j : RpcJson)
    (hn : wa.workGenerator = none) (h : nanoRpcCall true wa.rpcOutcome = Except.ok j) :
    workGenerateRaw wa = Except.ok (j.work.getD "") := by
  unfold workGenerateRaw
  rw [hn, h]

theorem workGenerate_invalid_token (wa : WorkGenerateArgs) (w : String)
    (hraw : workGenerateRaw wa = Except.ok w)
    (hbad : wa.verify wa.hash w wa.threshold = false) :
    (workGenerate wa).2 = Except.error workNotValidErr := by
  simp [workGenerate, hraw, hbad]

/-- C2: `workGenerate` returns a work token only if that token passes the
verification black box against the threshold; and whenever the generator
(custom local function, or the remote `work_generate` RPC) itself succeeded
with a token that fails threshold validation, `workGenerate` throws the
work-generation error, `createBlock` never records a signing call in its
trace, and `createBlock` returns no block. -/
theorem workGenerate_validates_before_accept (a : CreateBlockArgs) (w : String)
    (hgen : a.workGenerator = some (Except.ok w) ∨
      (a.workGenerator = none ∧
        ∃ j, nanoRpcCall true a.rpcWorkOutcome = Except.ok j ∧ j.work.getD "" = w))
    (hbad : a.verify a.previous w SEND_BLOCK_WORK_THRESHOLD = false) :
    (∀ (wa : WorkGenerateArgs) (w' : String),
      (workGenerate wa).2 = Except.ok w' → wa.verify wa.hash w' wa.threshold = true) ∧
    (workGenerate ⟨a.previous, SEND_BLOCK_WORK_THRESHOLD, a.workGenerator,
        a.rpcWorkOutcome, a.verify⟩).2 = Except.error workNotValidErr ∧
    Event.signCall ∉ (createBlock a).1 ∧
    ∀ b, (createBlock a).2 ≠ Except.ok b := by
  have hraw : workGenerateRaw ⟨a.previous, SEND_BLOCK_WORK_THRESHOLD, a.workGenerator,
      a.rpcWorkOutcome, a.verify⟩ = Except.ok w := by
    rcases hgen with hcustom | ⟨hnone, j, hrpc, hwork⟩
    · exact workGenerateRaw_custom _ w hcustom
    · rw [workGenerateRaw_rpc _ j hnone hrpc, hwork]
  have hwg : (workGenerate ⟨a.previous, SEND_BLOCK_WORK_THRESHOLD, a.workGenerator,
      a.rpcWorkOutcome, a.verify⟩).2 = Except.error workNotValidErr :=
    workGenerate_invalid_token _ w hraw hbad
  refine ⟨?_, hwg, ?_, ?_⟩
  · intro wa w' h
    have h' : (match workGenerateRaw wa with
        | Except.error e => Except.error e
        | Except.ok work =>
          if wa.verify wa.hash work wa.threshold then Except.ok work
          else Except.error workNotValidErr) = Except.ok w' := h
    cases hr : workGenerateRaw wa with
    | error e =>
      rw [hr] at h'
      have h'' : (Except.error e : Except Err String) = Except.ok w' := h'
      simp at h''
    | ok work =>
      rw [hr] at h'
      have h'' : (if wa.verify wa.hash work wa.threshold then Except.ok work
          else Except.error workNotValidErr) = Except.ok w' := h'
      by_cases hv : wa.verify wa.hash work wa.threshold = true
      · rw [if_pos hv] at h''
        have hww : work = w' := by simpa using h''
        rw [← hww]
        exact hv
      · rw [if_neg hv] at h''
        simp at h''
  · cases hbh : runHooks Event.beforeHook 0 a.beforeHooks with
    | mk L r =>
      cases r with
      | error e =>
        rw [createBlock_beforeHook_error a L e hbh]
        intro hmem
        have hL : (runHooks Event.beforeHook 0 a.beforeHooks).1 = L := by rw [hbh]
        obtain ⟨j, hj⟩ := runHooks_mem_tags Event.beforeHook a.beforeHooks 0
          Event.signCall (by rw [hL]; exact hmem)
        simp at hj
      | ok u =>
        cases u
        rw [createBlock_workGenerate_error a L workNotValidErr hbh hwg]
        intro hmem
        rw [List.mem_append] at hmem
        rcases hmem with hmem | hmem
        · have hL : (runHooks Event.beforeHook 0 a.beforeHooks).1 = L := by rw [hbh]
          obtain ⟨j, hj⟩ := runHooks_mem_tags Event.beforeHook a.beforeHooks 0
            Event.signCall (by rw [hL]; exact hmem)
          simp at hj
        · simp at hmem
  · intro b
    cases hbh : runHooks Event.beforeHook 0 a.beforeHooks with
    | mk L r =>
      cases r with
      | error e =>
        rw [createBlock_beforeHook_error a L e hbh]
        simp
      | ok u =>
        cases u
        rw [createBlock_workGenerate_error a L workNotValidErr hbh hwg]
        simp

/-- Witness for C2: a concrete build whose custom generator succeeds with a
token failing validation yields the work-generation error and no signing
call. -/
theorem workGenerate_validates_before_accept_witness :
    (workGenerate ⟨badWorkArgs.previous, SEND_BLOCK_WORK_THRESHOLD,
        badWorkArgs.workGenerator, badWorkArgs.rpcWorkOutcome, badWorkArgs.verify⟩).2 =
      Except.error workNotValidErr ∧
    Event.signCall ∉ (createBlock badWorkArgs).1 ∧
    ∀ b, (createBlock badWorkArgs).2 ≠ Except.ok b :=
  (workGenerate_validates_before_accept badWorkArgs "badtoken"
    (Or.inl rfl) rfl).2

/-! ## C6: frontier requirement in generateSendBlock -/

/-- C6: whenever the `account_info` lookup of `generateSendBlock` succeeds
but its response has no `frontier` field (and the fail-fast config
validations passed, so that the lookup is reached at all),
`generateSendBlock` throws the block-generation error, having performed only
the `account_info` call: no balance computation and no work-generation
request of any kind is performed. -/
theorem generateSendBlock_requires_frontier (g : GenerateSendBlockArgs) (info : RpcJson)
    (h3 : validateNanoRpcUrl g.urlOk g.config.NANO_RPC_URL false = Except.ok ())
    (h4 : validateNanoAccountPrivateKey HEX_64ok g.config.NANO_ACCOUNT_PRIVATE_KEY false =
      Except.ok ())
    (h5 : validateNanoWorkGenerationUrl g.urlOk g.config.NANO_WORK_GENERATION_URL false =
      Except.ok ())
    (h1 : nanoRpcCall false g.accountInfoOutcome = Except.ok info)
    (h2 : info.frontier = none) :
    generateSendBlock g = ([Event.accountInfoCall], Except.error noFrontierErr) ∧
    Event.balanceCalc ∉ (generateSendBlock g).1 ∧
    Event.workRequest ∉ (generateSendBlock g).1 := by
  have hai : getAccountInfo g.urlOk g.config g.accountInfoOutcome =
      ([Event.accountInfoCall], Except.ok info) := by
    unfold getAccountInfo
    rw [h3, h1]
  have hmain : generateSendBlock g =
      ([Event.accountInfoCall], Except.error noFrontierErr) := by
    unfold generateSendBlock
    rw [h3, h4, h5, hai]
    simp [h2, optTruthy]
  refine ⟨hmain, ?_, ?_⟩
  · rw [hmain]
    simp
  · rw [hmain]
    simp

/-- Witness for C6 at a concrete, fully configured instance whose
`account_info` response has no `frontier` field. -/
theorem generateSendBlock_requires_frontier_witness :
    generateSendBlock noFrontierArgs =
      ([Event.accountInfoCall], Except.error noFrontierErr) ∧
    Event.balanceCalc ∉ (generateSendBlock noFrontierArgs).1 ∧
    Event.workRequest ∉ (generateSendBlock noFrontierArgs).1 :=
  generateSendBlock_requires_frontier noFrontierArgs
    ⟨none, none, none, some "100", some "nano_rep"⟩ rfl rfl rfl rfl rfl

end X402Helper
